import Mathlib

/-!
Shallow embedding of `src/h_slcand.c` (husarion/h_slcand), the userspace
daemon that attaches the SLCAN line discipline to a serial device.

The program is a single `main` function.  We embed it as a pure function
from the parsed command-line options, an oracle of system-call results
(`Faults`), the initial device state (`Device`), and an optional signal
delivered while the wait loop runs, to the trace of device operations
performed (`List Ev`) and the process outcome (`Outcome`).

Flag words (`c_iflag`, `c_cflag`, ...) are the C `unsigned int` values,
modelled as `Nat`; the C complement `~MASK` on a 32-bit word is written
`0xFFFFFFFF ^^^ MASK`.
-/

namespace HSlcand

/-! ## Constants from the C headers used by the source -/

/-- Software output flow control bit of `c_iflag` (asm-generic/termbits.h). -/
def IXON : Nat := 0x400

/-- Software input flow control bit of `c_iflag` (asm-generic/termbits.h). -/
def IXOFF : Nat := 0x1000

/-- Hardware flow control bit of `c_cflag` (asm-generic/termbits.h). -/
def CRTSCTS : Nat := 0x80000000

/-- Baud-rate field mask of `c_cflag` (asm-generic/termbits.h). -/
def CBAUD : Nat := 0x100F

/-- Custom ("other") baud selector of `c_cflag` (asm-generic/termbits.h). -/
def BOTHER : Nat := 0x1000

/-- Low-latency flag of `serial_struct.flags` (linux/serial.h). -/
def ASYNC_LOW_LATENCY : Nat := 0x2000

/-- SLCAN line-discipline number (linux/tty.h). -/
def N_SLCAN : Nat := 17

/-- Default line-discipline number (linux/tty.h). -/
def N_TTY : Nat := 0

/-- Signal numbers (Linux default numbering). -/
def SIGINT : Nat := 2

/-- Termination signal number. -/
def SIGTERM : Nat := 15

/-- Alarm signal number. -/
def SIGALRM : Nat := 14

/-- Child-exit signal number. -/
def SIGCHLD : Nat := 17

/-- User signal 1 number (used by the `exit parent` case of the handler). -/
def SIGUSR1 : Nat := 10

/-- Flow-control type `FLOW_NONE` from the source. -/
def FLOW_NONE : Nat := 0

/-- Flow-control type `FLOW_HW` from the source. -/
def FLOW_HW : Nat := 1

/-- Flow-control type `FLOW_SW` from the source. -/
def FLOW_SW : Nat := 2

/-- Interface-name buffer length `IFNAMSIZ` (net/if.h); the rename target is
checked against `sizeof(ifr.ifr_newname) - 1 = 15`. -/
def IFNAMSIZ : Nat := 16

/-! ## Data model -/

/-- The fields of `struct termios2` manipulated by the source
(`c_cc`/`c_line` are never touched and are omitted). -/
structure Termios2 where
  c_iflag : Nat
  c_oflag : Nat
  c_cflag : Nat
  c_lflag : Nat
  c_ispeed : Nat
  c_ospeed : Nat
deriving DecidableEq, Repr

/-- Initial state of the serial device: its termios2 configuration and its
`serial_struct.flags` word. -/
structure Device where
  termios : Termios2
  serialFlags : Nat
deriving DecidableEq, Repr

/-- The command-line options of `main` after `getopt`, with the C initial
values as defaults.  `speed`, `flow_arg` and `btr` hold the raw `optarg`
strings; `uart_arg` holds the `strtol` result of `-S` converted to the C
`unsigned int` value (string-to-integer conversion is outside the model). -/
structure Options where
  send_open : Bool := false
  send_close : Bool := false
  send_listen : Bool := false
  send_read_status_flags : Bool := false
  speed : Option (List Char) := none
  uart_arg : Option Nat := none
  flow_arg : Option (List Char) := none
  btr : Option (List Char) := none
  run_as_daemon : Bool := true
  tty : Option (List Char) := none
  name : Option (List Char) := none

/-! ## Configuration Resolver (getopt loop and positional checks) -/

/-- Resolution of the `-t` token by the `strcmp` chain of the source:
`"hw"` gives `FLOW_HW`, `"sw"` gives `FLOW_SW`, anything else is invalid. -/
def flowTypeOf : List Char → Option Nat
  | ['h', 'w'] => some FLOW_HW
  | ['s', 'w'] => some FLOW_SW
  | _ => none

/-- The two rejection flavours of the source: `print_usage` (which exits with
`EXIT_FAILURE`) and a direct `exit(EXIT_FAILURE)`. -/
inductive Reject where
  | usage
  | fail
deriving DecidableEq, Repr

/-- The validation performed before the device is opened: the per-option
checks of the `getopt` loop, the missing-`tty` check, and the rename-target
length check (`strlen(name) > sizeof(ifr.ifr_newname) - 1`). -/
def argsCheck (o : Options) : Option Reject :=
  if o.speed.any (fun s => s.length > 1) then some .usage
  else if o.uart_arg.any (fun u => u > 6000000) then some .fail
  else if o.flow_arg.any (fun t => (flowTypeOf t).isNone) then some .fail
  else if o.btr.any (fun b => b.length > 8) then some .usage
  else if o.tty.isNone then some .usage
  else if o.name.any (fun n => n.length > IFNAMSIZ - 1) then some .usage
  else none

/-- The resolved `flow_type` variable: `FLOW_NONE` unless `-t` supplied a
recognized token. -/
def flow_type (o : Options) : Nat :=
  match o.flow_arg with
  | some t => (flowTypeOf t).getD FLOW_NONE
  | none => FLOW_NONE

/-- The resolved `uart_speed` variable: initialized to 0, overwritten by `-S`. -/
def uart_speed (o : Options) : Nat := o.uart_arg.getD 0

/-- Whether `strstr(tty, "/dev/") == tty`, i.e. the supplied name already
begins with the device-directory string. -/
def startsWithDev : List Char → Bool
  | '/' :: 'd' :: 'e' :: 'v' :: '/' :: _ => true
  | _ => false

/-- The `ttypath` buffer after the two `snprintf` calls: prefixed with
`"/dev/"` unless already so, truncated to `TTYPATH_LENGTH - 1` characters. -/
def mkTtyPath (tty : List Char) : List Char :=
  (if startsWithDev tty then tty else ['/', 'd', 'e', 'v', '/'] ++ tty).take 255

/-! ## Line Setup: the termios2 mutation (source lines 254-268) -/

/-- The mutation of the `tios` structure before `TCSETS2`:
clear `IXOFF`, clear `CRTSCTS`, clear the `CBAUD` field and select `BOTHER`,
set both speeds to `uart_speed`, then re-enable the requested flow-control
mode's flags. -/
def applyLineConfig (t : Termios2) (uartSpeed : Nat) (flowType : Nat) : Termios2 :=
  let t1 : Termios2 := { t with c_iflag := t.c_iflag &&& (0xFFFFFFFF ^^^ IXOFF) }
  let t2 : Termios2 := { t1 with c_cflag := t1.c_cflag &&& (0xFFFFFFFF ^^^ CRTSCTS) }
  let t3 : Termios2 := { t2 with
    c_cflag := (t2.c_cflag &&& (0xFFFFFFFF ^^^ CBAUD)) ||| BOTHER
    c_ispeed := uartSpeed
    c_ospeed := uartSpeed }
  if flowType = FLOW_HW then
    { t3 with c_cflag := t3.c_cflag ||| CRTSCTS }
  else if flowType = FLOW_SW then
    { t3 with c_iflag := t3.c_iflag ||| (IXON ||| IXOFF) }
  else t3

/-! ## Protocol Primer (source lines 277-313) -/

/-- The byte strings passed to `write(2)` by the primer, in source order:
`"C\rS<speed>\r"` if `-s`, `"C\rs<btr>\r"` if `-b`, `"F\r"` if `-f`, then
`"L\r"` if `-l` else `"O\r"` if `-o`. -/
def primerCmds (o : Options) : List (List Char) :=
  (match o.speed with
   | some s => [['C', '\r', 'S'] ++ s ++ ['\r']]
   | none => []) ++
  (match o.btr with
   | some b => [['C', '\r', 's'] ++ b ++ ['\r']]
   | none => []) ++
  (if o.send_read_status_flags then [['F', '\r']] else []) ++
  (if o.send_listen then [['L', '\r']]
   else if o.send_open then [['O', '\r']] else [])

/-- Spec-side description of the primer, for the refinement claim: the list of
adapter commands (without terminator) in the spec's fixed order — CAN-speed
(`C` then `S<code>`), bit-timing (`C` then `s<btr>`), read-status (`F`), then
exactly one of listen-only (`L`) or open (`O`) with listen-only winning. -/
def specCommands (o : Options) : List (List Char) :=
  (match o.speed with
   | some s => [['C'], ['S'] ++ s]
   | none => []) ++
  (match o.btr with
   | some b => [['C'], ['s'] ++ b]
   | none => []) ++
  (if o.send_read_status_flags then [['F']] else []) ++
  (if o.send_listen then [['L']]
   else if o.send_open then [['O']] else [])

/-- Spec-side byte stream: each command of `specCommands` terminated by a
single carriage-return byte, and nothing else. -/
def specPrimerBytes (o : Options) : List Char :=
  (List.map (fun c => c ++ ['\r']) (specCommands o)).flatten

/-! ## Events, faults, outcomes -/

/-- Observable device/kernel interactions of the program. -/
inductive Ev where
  | openDev (path : List Char)
  | getAttrs
  | getSerial
  | setSerial (flags : Nat)
  | setAttrs (t : Termios2)
  | closeFd
  | writeB (bytes : List Char)
  | setLdisc (n : Nat)
  | getIfName
  | sockOpen
  | renameIf (src dst : List Char)
  | daemonize
deriving DecidableEq, Repr

/-- Results of the fallible system calls, one field per call site
(each site executes at most once). `writeOk i` is the result of the i-th
primer `write`; `ifname` is the name returned by `SIOCGIFNAME`;
`garbageSerial` models the uninitialized `serial_struct` contents if
`TIOCGSERIAL` fails (the source uses it regardless). -/
structure Faults where
  openOk : Bool := true
  tcgets1Ok : Bool := true
  tcgets2Ok : Bool := true
  tiocgserialOk : Bool := true
  garbageSerial : Nat := 0
  tiocsserialOk : Bool := true
  tcsetsOk : Bool := true
  writeOk : Nat → Bool := fun _ => true
  setLdiscOk : Bool := true
  getIfNameOk : Bool := true
  ifname : List Char := ['s', 'l', 'c', 'a', 'n', '0']
  socketOk : Bool := true
  renameOk : Bool := true
  daemonOk : Bool := true
  detachOk : Bool := true
  writeCloseOk : Bool := true
  restoreOk : Bool := true

/-- All system calls succeed. -/
def allOk : Faults := {}

/-- Process outcomes. `usageExit` and `failExit` are `exit(EXIT_FAILURE)`
paths (`print_usage` respectively direct); `exitedZero` is the handler's
`exit(EXIT_SUCCESS)` branch; `returned n` is the final `return exit_code`;
`runsForever` means the wait loop never unblocks; `killedBySignal s` is
termination by a signal's default disposition (no code of the program runs). -/
inductive Outcome where
  | usageExit
  | failExit
  | exitedZero
  | returned (code : Nat)
  | runsForever
  | killedBySignal (s : Nat)
deriving DecidableEq, Repr

/-- The numeric process exit status of an outcome, when the process exits
through `exit`/`return` (`EXIT_FAILURE = 1`, `EXIT_SUCCESS = 0`). -/
def exitStatusOf : Outcome → Option Nat
  | .usageExit => some 1
  | .failExit => some 1
  | .exitedZero => some 0
  | .returned n => some n
  | .runsForever => none
  | .killedBySignal _ => none

/-! ## Signal handling (source lines 100-116 and 357-361) -/

/-- Effect of one invocation of `child_handler` on the process. -/
inductive HandlerEffect where
  | exitSuccess
  | stop (code : Nat)
  | noEffect
deriving DecidableEq, Repr

/-- The `child_handler` switch: `SIGUSR1` exits with success; `SIGINT`,
`SIGTERM`, `SIGALRM` and `SIGCHLD` set `exit_code = 128 + signum` and clear
`slcand_running`; any other signal falls through the switch. -/
def child_handler (signum : Nat) : HandlerEffect :=
  if signum = SIGUSR1 then .exitSuccess
  else if signum = SIGINT ∨ signum = SIGTERM ∨ signum = SIGALRM ∨ signum = SIGCHLD then
    .stop (128 + signum)
  else .noEffect

/-- The signals for which `signal(sig, child_handler)` is called, which the
source does only in the foreground (`else`) branch: `SIGINT` and `SIGTERM`. -/
def installedSignals : List Nat := [SIGINT, SIGTERM]

/-- Default disposition of a delivered signal when no handler is installed. -/
inductive SigDefault where
  | terminate
  | ignore
deriving DecidableEq, Repr

/-- Modelled from the spec: the operating system's default signal semantics
(an external collaborator, "assumed correct; the core only specifies how it
is driven").  Of the signals the claims mention, `SIGCHLD` is ignored by
default and `SIGINT`/`SIGTERM`/`SIGALRM` terminate the process by default. -/
def defaultDisposition (s : Nat) : SigDefault :=
  if s = SIGCHLD then .ignore else .terminate

/-! ## Teardown (source lines 368-395) -/

/-- The code after the wait loop: reset the line discipline to `N_TTY`
(fatal on failure), send `"C\r"` if `-c` was given (fatal on failure),
reapply the saved `tios_old` with `TCSETS2` (fatal on failure), then
`return exit_code`. -/
def teardownRun (o : Options) (f : Faults) (tios_old : Termios2) (code : Nat) :
    List Ev × Outcome :=
  if ¬ f.detachOk then ([Ev.setLdisc N_TTY], .failExit)
  else if o.send_close then
    if ¬ f.writeCloseOk then
      ([Ev.setLdisc N_TTY, Ev.writeB ['C', '\r']], .failExit)
    else if ¬ f.restoreOk then
      ([Ev.setLdisc N_TTY, Ev.writeB ['C', '\r'], Ev.setAttrs tios_old], .failExit)
    else
      ([Ev.setLdisc N_TTY, Ev.writeB ['C', '\r'], Ev.setAttrs tios_old], .returned code)
  else
    if ¬ f.restoreOk then ([Ev.setLdisc N_TTY, Ev.setAttrs tios_old], .failExit)
    else ([Ev.setLdisc N_TTY, Ev.setAttrs tios_old], .returned code)

/-! ## Run Supervisor (source lines 351-366) -/

/-- The wait loop `while (slcand_running) sleep(1)` with an optional signal
delivered while it runs.  In daemon mode no handler was installed, so a
delivered signal follows its default disposition.  In foreground mode a
signal in `installedSignals` invokes `child_handler`; a `stop` effect clears
the running flag, the loop unblocks, and teardown runs with the stored
`exit_code`. -/
def supervise (o : Options) (f : Faults) (tios_old : Termios2) (sig : Option Nat) :
    List Ev × Outcome :=
  match sig with
  | none => ([], .runsForever)
  | some s =>
    if o.run_as_daemon then
      match defaultDisposition s with
      | .ignore => ([], .runsForever)
      | .terminate => ([], .killedBySignal s)
    else
      if s ∈ installedSignals then
        match child_handler s with
        | .stop code => teardownRun o f tios_old code
        | .exitSuccess => ([], .exitedZero)
        | .noEffect => ([], .runsForever)
      else
        match defaultDisposition s with
        | .ignore => ([], .runsForever)
        | .terminate => ([], .killedBySignal s)

/-! ## Line Setup through Discipline Attacher (source lines 219-349) -/

/-- Run the primer writes in order with the per-call results `ok`, starting
at call index `i`; stops (returning `false`) at the first failing write. -/
def runWrites : List (List Char) → (Nat → Bool) → Nat → List Ev × Bool
  | [], _, _ => ([], true)
  | c :: cs, ok, i =>
    if ok i then
      let r := runWrites cs ok (i + 1)
      (Ev.writeB c :: r.1, r.2)
    else ([Ev.writeB c], false)

/-- The straight-line code from `open` up to the rename block inclusive:
returns the event trace and whether control reached the daemonize/foreground
switch (`false` means `exit(EXIT_FAILURE)`).  The two `TCGETS2` calls read
the still-unmutated device, so both `tios` and `tios_old` equal `d.termios`;
the low-latency `TIOCGSERIAL`/`TIOCSSERIAL` pair is best-effort; a failing
`socket` for the rename is only logged and the rename is skipped. -/
def setupPhase (o : Options) (f : Faults) (d : Device) : List Ev × Bool :=
  let ttyp := mkTtyPath (o.tty.getD [])
  let e0 := [Ev.openDev ttyp]
  if ¬ f.openOk then (e0, false) else
  let e1 := e0 ++ [Ev.getAttrs]
  if ¬ f.tcgets1Ok then (e1, false) else
  let e2 := e1 ++ [Ev.getAttrs]
  if ¬ f.tcgets2Ok then (e2, false) else
  let snewFlags := (if f.tiocgserialOk then d.serialFlags else f.garbageSerial)
      ||| ASYNC_LOW_LATENCY
  let e3 := e2 ++ [Ev.getSerial, Ev.setSerial snewFlags]
  let tios := applyLineConfig d.termios (uart_speed o) (flow_type o)
  let e4 := e3 ++ [Ev.setAttrs tios]
  if ¬ f.tcsetsOk then (e4 ++ [Ev.closeFd], false) else
  let w := runWrites (primerCmds o) f.writeOk 0
  let e5 := e4 ++ w.1
  if ¬ w.2 then (e5, false) else
  let e6 := e5 ++ [Ev.setLdisc N_SLCAN]
  if ¬ f.setLdiscOk then (e6, false) else
  let e7 := e6 ++ [Ev.getIfName]
  if ¬ f.getIfNameOk then (e7, false) else
  match o.name with
  | none => (e7, true)
  | some nm =>
    if ¬ f.socketOk then (e7 ++ [Ev.sockOpen], true)
    else
      let e8 := e7 ++ [Ev.sockOpen, Ev.renameIf f.ifname (nm.take (IFNAMSIZ - 1))]
      if ¬ f.renameOk then (e8, false) else (e8, true)

/-! ## The whole of `main` -/

/-- The embedding of `main`: validation, setup, daemonize or install
handlers, the wait loop with an optional delivered signal, and teardown. -/
def runMain (o : Options) (f : Faults) (d : Device) (sig : Option Nat) :
    List Ev × Outcome :=
  match argsCheck o with
  | some .usage => ([], .usageExit)
  | some .fail => ([], .failExit)
  | none =>
    let s := setupPhase o f d
    if ¬ s.2 then (s.1, .failExit) else
    if o.run_as_daemon then
      let e := s.1 ++ [Ev.daemonize]
      if ¬ f.daemonOk then (e, .failExit) else
      let r := supervise o f d.termios sig
      (e ++ r.1, r.2)
    else
      let r := supervise o f d.termios sig
      (s.1 ++ r.1, r.2)

/-! ## Spec-side predicates and shared instances -/

/-- Spec-side reading of "hardware flow control active": the `CRTSCTS` bit is
set in the applied configuration. -/
def hwActive (t : Termios2) : Bool := t.c_cflag &&& CRTSCTS != 0

/-- Spec-side reading of "software flow control active": some software
flow-control bit (`IXON` or `IXOFF`) is set in the applied configuration. -/
def swActive (t : Termios2) : Bool := t.c_iflag &&& (IXON ||| IXOFF) != 0

/-- Spec-side statement that exactly one of no flow control, hardware flow
control, software flow control is active and it matches the requested mode. -/
def matchesRequested (t : Termios2) (flowType : Nat) : Bool :=
  if flowType = FLOW_HW then hwActive t && !swActive t
  else if flowType = FLOW_SW then swActive t && !hwActive t
  else !hwActive t && !swActive t

/-- Extract the byte strings passed to `write` from a trace. -/
def writesOf (tr : List Ev) : List (List Char) :=
  tr.filterMap fun e => match e with | .writeB s => some s | _ => none

/-- All system calls up to and including the primer writes succeed. -/
def preAttachOk (f : Faults) : Prop :=
  f.openOk = true ∧ f.tcgets1Ok = true ∧ f.tcgets2Ok = true ∧ f.tcsetsOk = true ∧
    ∀ i, f.writeOk i = true

/-- Invalid speed argument per the claim: longer than one character. -/
def badSpeedArg (o : Options) : Prop := ∃ s, o.speed = some s ∧ s.length > 1

/-- Invalid bit-timing argument per the claim: longer than 8 characters. -/
def badBtrArg (o : Options) : Prop := ∃ b, o.btr = some b ∧ b.length > 8

/-- Invalid UART baud per the claim: exceeds 6,000,000. -/
def badUartArg (o : Options) : Prop := ∃ u, o.uart_arg = some u ∧ u > 6000000

/-- Invalid flow-control token per the claim: neither recognized value. -/
def badFlowArg (o : Options) : Prop := ∃ t, o.flow_arg = some t ∧ flowTypeOf t = none

/-- Invalid rename target per the claim: exceeds the interface-name limit. -/
def badNameArg (o : Options) : Prop := ∃ n, o.name = some n ∧ n.length > IFNAMSIZ - 1

/-- A concrete device whose saved configuration is all zeros. -/
def d0 : Device := ⟨⟨0, 0, 0, 0, 0, 0⟩, 0⟩

/-- A concrete baseline whose `c_iflag` has the software output flow-control
bit (`IXON`) set. -/
def baseIxon : Termios2 := ⟨0x400, 0, 0, 0, 0, 0⟩

/-- Foreground invocation `h_slcand -F x`. -/
def o1 : Options := { tty := some ['x'], run_as_daemon := false }

/-- Daemon invocation `h_slcand -s6 x`. -/
def oSpeed : Options := { tty := some ['x'], speed := some ['6'] }

/-- Foreground invocation with every primer flag:
`h_slcand -F -o -l -f -s6 -b7 x`. -/
def oFull : Options :=
  { tty := some ['x'], run_as_daemon := false, speed := some ['6'], btr := some ['7'],
    send_read_status_flags := true, send_listen := true, send_open := true }

/-- Foreground invocation with a rename target: `h_slcand -F x c0`. -/
def oRename : Options :=
  { tty := some ['x'], run_as_daemon := false, name := some ['c', '0'] }

/-- Invocation with a 9-character bit-timing argument. -/
def oBadBtr : Options :=
  { tty := some ['x'], btr := some ['1', '2', '3', '4', '5', '6', '7', '8', '9'] }

/-- Invocation `h_slcand -s<c> x` for an arbitrary single character `c`. -/
def o8 (c : Char) : Options := { tty := some ['x'], speed := some [c] }

/-- Faults where every primer `write` fails. -/
def fWriteFail : Faults := { writeOk := fun _ => false }

/-- Faults where the rename `socket` call fails. -/
def fSockFail : Faults := { socketOk := false }

/-- Faults where the line-discipline attach `ioctl` fails. -/
def fLdiscFail : Faults := { setLdiscOk := false }

/-! ## Bitwise helper lemmas -/

theorem lor_land_distrib (a b c : Nat) : (a ||| b) &&& c = (a &&& c) ||| (b &&& c) := by
  apply Nat.eq_of_testBit_eq
  intro i
  simp only [Nat.testBit_land, Nat.testBit_lor]
  cases a.testBit i <;> cases b.testBit i <;> cases c.testBit i <;> rfl

theorem lor_land_self (a b : Nat) : (a ||| b) &&& b = b := by
  apply Nat.eq_of_testBit_eq
  intro i
  simp only [Nat.testBit_land, Nat.testBit_lor]
  cases a.testBit i <;> cases b.testBit i <;> rfl

theorem iflag_cleared_sw (x : Nat) (h : x &&& IXON = 0) :
    (x &&& (0xFFFFFFFF ^^^ IXOFF)) &&& (IXON ||| IXOFF) = 0 := by
  rw [Nat.land_assoc]
  have e : (0xFFFFFFFF ^^^ IXOFF) &&& (IXON ||| IXOFF) = IXON := by decide
  rw [e, h]

theorem iflag_cleared_ixoff (x : Nat) :
    (x &&& (0xFFFFFFFF ^^^ IXOFF)) &&& IXOFF = 0 := by
  rw [Nat.land_assoc]
  have e : (0xFFFFFFFF ^^^ IXOFF) &&& IXOFF = 0 := by decide
  rw [e, Nat.and_zero]

theorem cflag_cleared_crtscts (y : Nat) :
    (((y &&& (0xFFFFFFFF ^^^ CRTSCTS)) &&& (0xFFFFFFFF ^^^ CBAUD)) ||| BOTHER) &&& CRTSCTS
      = 0 := by
  rw [lor_land_distrib, Nat.land_assoc, Nat.land_assoc]
  have e1 : (0xFFFFFFFF ^^^ CRTSCTS) &&& ((0xFFFFFFFF ^^^ CBAUD) &&& CRTSCTS) = 0 := by decide
  have e2 : BOTHER &&& CRTSCTS = 0 := by decide
  rw [e1, e2, Nat.and_zero, Nat.or_zero]

theorem cflag_cbaud_is_bother (y : Nat) :
    (((y &&& (0xFFFFFFFF ^^^ CRTSCTS)) &&& (0xFFFFFFFF ^^^ CBAUD)) ||| BOTHER) &&& CBAUD
      = BOTHER := by
  rw [lor_land_distrib, Nat.land_assoc, Nat.land_assoc]
  have e1 : (0xFFFFFFFF ^^^ CRTSCTS) &&& ((0xFFFFFFFF ^^^ CBAUD) &&& CBAUD) = 0 := by decide
  have e2 : BOTHER &&& CBAUD = BOTHER := by decide
  rw [e1, e2, Nat.and_zero, Nat.zero_or]

theorem cflag_cbaud_is_bother_hw (y : Nat) :
    ((((y &&& (0xFFFFFFFF ^^^ CRTSCTS)) &&& (0xFFFFFFFF ^^^ CBAUD)) ||| BOTHER) ||| CRTSCTS)
      &&& CBAUD = BOTHER := by
  rw [lor_land_distrib, cflag_cbaud_is_bother]
  have e : CRTSCTS &&& CBAUD = 0 := by decide
  rw [e, Nat.or_zero]

/-! ## Shape of the applied line configuration, by flow-control branch -/

theorem applyLineConfig_hw (base : Termios2) (u : Nat) :
    applyLineConfig base u FLOW_HW =
      { c_iflag := base.c_iflag &&& (0xFFFFFFFF ^^^ IXOFF)
        c_oflag := base.c_oflag
        c_cflag := (((base.c_cflag &&& (0xFFFFFFFF ^^^ CRTSCTS)) &&&
          (0xFFFFFFFF ^^^ CBAUD)) ||| BOTHER) ||| CRTSCTS
        c_lflag := base.c_lflag
        c_ispeed := u
        c_ospeed := u } := rfl

theorem applyLineConfig_sw (base : Termios2) (u : Nat) :
    applyLineConfig base u FLOW_SW =
      { c_iflag := (base.c_iflag &&& (0xFFFFFFFF ^^^ IXOFF)) ||| (IXON ||| IXOFF)
        c_oflag := base.c_oflag
        c_cflag := ((base.c_cflag &&& (0xFFFFFFFF ^^^ CRTSCTS)) &&&
          (0xFFFFFFFF ^^^ CBAUD)) ||| BOTHER
        c_lflag := base.c_lflag
        c_ispeed := u
        c_ospeed := u } := rfl

theorem applyLineConfig_other (base : Termios2) (u ft : Nat)
    (hw : ft ≠ FLOW_HW) (sw : ft ≠ FLOW_SW) :
    applyLineConfig base u ft =
      { c_iflag := base.c_iflag &&& (0xFFFFFFFF ^^^ IXOFF)
        c_oflag := base.c_oflag
        c_cflag := ((base.c_cflag &&& (0xFFFFFFFF ^^^ CRTSCTS)) &&&
          (0xFFFFFFFF ^^^ CBAUD)) ||| BOTHER
        c_lflag := base.c_lflag
        c_ispeed := u
        c_ospeed := u } := by
  unfold applyLineConfig
  rw [if_neg hw, if_neg sw]

theorem matches_applied_hw (base : Termios2) (u : Nat) (h : base.c_iflag &&& IXON = 0) :
    matchesRequested (applyLineConfig base u FLOW_HW) FLOW_HW = true := by
  rw [applyLineConfig_hw]
  unfold matchesRequested
  rw [if_pos rfl]
  unfold hwActive swActive
  simp only
  rw [lor_land_self, iflag_cleared_sw base.c_iflag h]
  decide

theorem matches_applied_sw (base : Termios2) (u : Nat) :
    matchesRequested (applyLineConfig base u FLOW_SW) FLOW_SW = true := by
  rw [applyLineConfig_sw]
  unfold matchesRequested
  rw [if_neg (by decide : FLOW_SW ≠ FLOW_HW), if_pos rfl]
  unfold hwActive swActive
  simp only
  rw [lor_land_self, cflag_cleared_crtscts]
  decide

theorem matches_applied_other (base : Termios2) (u ft : Nat)
    (hw : ft ≠ FLOW_HW) (sw : ft ≠ FLOW_SW) (h : base.c_iflag &&& IXON = 0) :
    matchesRequested (applyLineConfig base u ft) ft = true := by
  rw [applyLineConfig_other base u ft hw sw]
  unfold matchesRequested
  rw [if_neg hw, if_neg sw]
  unfold hwActive swActive
  simp only
  rw [cflag_cleared_crtscts, iflag_cleared_sw base.c_iflag h]
  decide

/-! ## Trace bookkeeping lemmas -/

theorem runWrites_all (cmds : List (List Char)) (ok : Nat → Bool) (h : ∀ j, ok j = true) :
    ∀ i, runWrites cmds ok i = (cmds.map Ev.writeB, true) := by
  induction cmds with
  | nil => intro i; rfl
  | cons c cs ih => intro i; simp [runWrites, h i, ih]

theorem writesOf_append (a b : List Ev) :
    writesOf (a ++ b) = writesOf a ++ writesOf b := by
  simp [writesOf]

theorem writesOf_nil : writesOf [] = [] := rfl

theorem writesOf_cons_openDev (p : List Char) (tr : List Ev) :
    writesOf (Ev.openDev p :: tr) = writesOf tr := rfl

theorem writesOf_cons_getAttrs (tr : List Ev) :
    writesOf (Ev.getAttrs :: tr) = writesOf tr := rfl

theorem writesOf_cons_getSerial (tr : List Ev) :
    writesOf (Ev.getSerial :: tr) = writesOf tr := rfl

theorem writesOf_cons_setSerial (x : Nat) (tr : List Ev) :
    writesOf (Ev.setSerial x :: tr) = writesOf tr := rfl

theorem writesOf_cons_setAttrs (t : Termios2) (tr : List Ev) :
    writesOf (Ev.setAttrs t :: tr) = writesOf tr := rfl

theorem writesOf_cons_closeFd (tr : List Ev) :
    writesOf (Ev.closeFd :: tr) = writesOf tr := rfl

theorem writesOf_cons_setLdisc (x : Nat) (tr : List Ev) :
    writesOf (Ev.setLdisc x :: tr) = writesOf tr := rfl

theorem writesOf_cons_getIfName (tr : List Ev) :
    writesOf (Ev.getIfName :: tr) = writesOf tr := rfl

theorem writesOf_cons_sockOpen (tr : List Ev) :
    writesOf (Ev.sockOpen :: tr) = writesOf tr := rfl

theorem writesOf_cons_renameIf (a b : List Char) (tr : List Ev) :
    writesOf (Ev.renameIf a b :: tr) = writesOf tr := rfl

theorem writesOf_cons_daemonize (tr : List Ev) :
    writesOf (Ev.daemonize :: tr) = writesOf tr := rfl

theorem writesOf_cons_writeB (s : List Char) (tr : List Ev) :
    writesOf (Ev.writeB s :: tr) = s :: writesOf tr := rfl

theorem writesOf_writeB (l : List (List Char)) : writesOf (l.map Ev.writeB) = l := by
  induction l with
  | nil => rfl
  | cons c cs ih => rw [List.map_cons, writesOf_cons_writeB, ih]

/-! ## Setup phase lemmas -/

theorem setup_flag_ldisc_fail (o : Options) (f : Faults) (d : Device)
    (hpre : preAttachOk f) (h : f.setLdiscOk = false) :
    (setupPhase o f d).2 = false := by
  obtain ⟨h1, h2, h3, h4, h5⟩ := hpre
  unfold setupPhase
  rw [runWrites_all (primerCmds o) f.writeOk h5 0]
  simp [h1, h2, h3, h4, h]

theorem setup_flag_ifname_fail (o : Options) (f : Faults) (d : Device)
    (hpre : preAttachOk f) (ha : f.setLdiscOk = true) (hb : f.getIfNameOk = false) :
    (setupPhase o f d).2 = false := by
  obtain ⟨h1, h2, h3, h4, h5⟩ := hpre
  unfold setupPhase
  rw [runWrites_all (primerCmds o) f.writeOk h5 0]
  simp [h1, h2, h3, h4, ha, hb]

theorem setup_flag_rename_fail (o : Options) (f : Faults) (d : Device) (nm : List Char)
    (hpre : preAttachOk f) (ha : f.setLdiscOk = true) (hb : f.getIfNameOk = true)
    (hnm : o.name = some nm) (hc : f.socketOk = true) (hd : f.renameOk = false) :
    (setupPhase o f d).2 = false := by
  obtain ⟨h1, h2, h3, h4, h5⟩ := hpre
  unfold setupPhase
  rw [runWrites_all (primerCmds o) f.writeOk h5 0]
  simp [h1, h2, h3, h4, ha, hb, hnm, hc, hd]

theorem setup_writes (o : Options) (f : Faults) (d : Device)
    (hw : ∀ i, f.writeOk i = true) (hs : (setupPhase o f d).2 = true) :
    writesOf (setupPhase o f d).1 = primerCmds o := by
  unfold setupPhase at hs ⊢
  rw [runWrites_all (primerCmds o) f.writeOk hw 0] at hs ⊢
  by_cases h1 : f.openOk = true
  all_goals simp only [h1] at hs ⊢
  case neg => simp at hs
  by_cases h2 : f.tcgets1Ok = true
  all_goals simp only [h2] at hs ⊢
  case neg => simp at hs
  by_cases h3 : f.tcgets2Ok = true
  all_goals simp only [h3] at hs ⊢
  case neg => simp at hs
  by_cases h4 : f.tcsetsOk = true
  all_goals simp only [h4] at hs ⊢
  case neg => simp at hs
  by_cases h5 : f.setLdiscOk = true
  all_goals simp only [h5] at hs ⊢
  case neg => simp at hs
  by_cases h6 : f.getIfNameOk = true
  all_goals simp only [h6] at hs ⊢
  case neg => simp at hs
  rcases hnm : o.name with _ | nm
  all_goals simp only [hnm] at hs ⊢
  · simp [writesOf_append, writesOf_writeB, writesOf_nil, writesOf_cons_openDev,
      writesOf_cons_getAttrs, writesOf_cons_getSerial, writesOf_cons_setSerial,
      writesOf_cons_setAttrs, writesOf_cons_closeFd, writesOf_cons_setLdisc,
      writesOf_cons_getIfName, writesOf_cons_sockOpen, writesOf_cons_renameIf,
      writesOf_cons_daemonize, writesOf_cons_writeB]
  · by_cases h7 : f.socketOk = true
    all_goals simp only [h7] at hs ⊢
    · by_cases h8 : f.renameOk = true
      all_goals simp only [h8] at hs ⊢
      · simp [writesOf_append, writesOf_writeB, writesOf_nil, writesOf_cons_openDev,
          writesOf_cons_getAttrs, writesOf_cons_getSerial, writesOf_cons_setSerial,
          writesOf_cons_setAttrs, writesOf_cons_closeFd, writesOf_cons_setLdisc,
          writesOf_cons_getIfName, writesOf_cons_sockOpen, writesOf_cons_renameIf,
          writesOf_cons_daemonize, writesOf_cons_writeB]
      · simp at hs
    · simp [writesOf_append, writesOf_writeB, writesOf_nil, writesOf_cons_openDev,
        writesOf_cons_getAttrs, writesOf_cons_getSerial, writesOf_cons_setSerial,
        writesOf_cons_setAttrs, writesOf_cons_closeFd, writesOf_cons_setLdisc,
        writesOf_cons_getIfName, writesOf_cons_sockOpen, writesOf_cons_renameIf,
        writesOf_cons_daemonize, writesOf_cons_writeB]

/-! ## Teardown and supervisor lemmas -/

theorem teardownRun_snd_returned (o : Options) (f : Faults) (t : Termios2) (c n : Nat)
    (h : (teardownRun o f t c).2 = .returned n) :
    n = c ∧ Ev.setAttrs t ∈ (teardownRun o f t c).1 := by
  unfold teardownRun at h ⊢
  split_ifs at h ⊢ <;> simp_all

theorem teardownRun_detach_first (o : Options) (f : Faults) (t : Termios2) (c : Nat) :
    Ev.setLdisc N_TTY ∈ (teardownRun o f t c).1 := by
  unfold teardownRun
  split_ifs <;> simp

theorem teardownRun_outcomes (o : Options) (f : Faults) (t : Termios2) (c : Nat) :
    (teardownRun o f t c).2 = .failExit ∨ (teardownRun o f t c).2 = .returned c := by
  unfold teardownRun
  split_ifs <;> simp

theorem supervise_none (o : Options) (f : Faults) (t : Termios2) :
    supervise o f t none = ([], .runsForever) := rfl

theorem supervise_daemon (o : Options) (f : Faults) (t : Termios2) (s : Nat)
    (hd : o.run_as_daemon = true) :
    supervise o f t (some s) = (match defaultDisposition s with
      | .ignore => ([], .runsForever)
      | .terminate => ([], .killedBySignal s)) := by
  simp only [supervise]
  rw [if_pos hd]

theorem supervise_fg_handled (o : Options) (f : Faults) (t : Termios2) (s : Nat)
    (hd : ¬ o.run_as_daemon = true) (hmem : s ∈ installedSignals) :
    supervise o f t (some s) = (match child_handler s with
      | .stop code => teardownRun o f t code
      | .exitSuccess => ([], .exitedZero)
      | .noEffect => ([], .runsForever)) := by
  simp only [supervise]
  rw [if_neg hd, if_pos hmem]

theorem supervise_fg_unhandled (o : Options) (f : Faults) (t : Termios2) (s : Nat)
    (hd : ¬ o.run_as_daemon = true) (hmem : ¬ s ∈ installedSignals) :
    supervise o f t (some s) = (match defaultDisposition s with
      | .ignore => ([], .runsForever)
      | .terminate => ([], .killedBySignal s)) := by
  simp only [supervise]
  rw [if_neg hd, if_neg hmem]

theorem installed_cases (s : Nat) (hmem : s ∈ installedSignals) :
    s = SIGINT ∨ s = SIGTERM := by
  simpa [installedSignals] using hmem

theorem installed_handler (s : Nat) (hmem : s ∈ installedSignals) :
    child_handler s = .stop (128 + s) := by
  rcases installed_cases s hmem with h2 | h2 <;> subst h2 <;> decide

theorem supervise_snd_returned (o : Options) (f : Faults) (t : Termios2)
    (sig : Option Nat) (n : Nat) (h : (supervise o f t sig).2 = .returned n) :
    ∃ s, sig = some s ∧ o.run_as_daemon = false ∧ (s = SIGINT ∨ s = SIGTERM) ∧
      n = 128 + s ∧ Ev.setAttrs t ∈ (supervise o f t sig).1 := by
  match sig with
  | none => rw [supervise_none] at h; simp at h
  | some s =>
    by_cases hd : o.run_as_daemon = true
    · rw [supervise_daemon o f t s hd] at h
      rcases hdd : defaultDisposition s with _ | _ <;> rw [hdd] at h <;> simp at h
    · by_cases hmem : s ∈ installedSignals
      · have hval : supervise o f t (some s) = teardownRun o f t (128 + s) := by
          rw [supervise_fg_handled o f t s hd hmem, installed_handler s hmem]
        rw [hval] at h ⊢
        have ht := teardownRun_snd_returned o f t (128 + s) n h
        exact ⟨s, rfl, by simpa using hd, installed_cases s hmem, ht.1, ht.2⟩
      · rw [supervise_fg_unhandled o f t s hd hmem] at h
        rcases hdd : defaultDisposition s with _ | _ <;> rw [hdd] at h <;> simp at h

/-! ## Branch equations for the whole of `main` -/

theorem runMain_eq_reject (o : Options) (f : Faults) (d : Device) (sig : Option Nat)
    (r : Reject) (hA : argsCheck o = some r) :
    runMain o f d sig = ([], if r = .usage then .usageExit else .failExit) := by
  unfold runMain
  rw [hA]
  rcases r <;> rfl

theorem runMain_eq_setupFail (o : Options) (f : Faults) (d : Device) (sig : Option Nat)
    (hA : argsCheck o = none) (hs : (setupPhase o f d).2 = false) :
    runMain o f d sig = ((setupPhase o f d).1, .failExit) := by
  unfold runMain
  rw [hA]
  simp [hs]

theorem runMain_eq_fg (o : Options) (f : Faults) (d : Device) (sig : Option Nat)
    (hA : argsCheck o = none) (hs : (setupPhase o f d).2 = true)
    (hd : o.run_as_daemon = false) :
    runMain o f d sig =
      ((setupPhase o f d).1 ++ (supervise o f d.termios sig).1,
        (supervise o f d.termios sig).2) := by
  unfold runMain
  rw [hA]
  simp [hs, hd]

theorem runMain_eq_daemonFail (o : Options) (f : Faults) (d : Device) (sig : Option Nat)
    (hA : argsCheck o = none) (hs : (setupPhase o f d).2 = true)
    (hd : o.run_as_daemon = true) (hdm : f.daemonOk = false) :
    runMain o f d sig = ((setupPhase o f d).1 ++ [Ev.daemonize], .failExit) := by
  unfold runMain
  rw [hA]
  simp [hs, hd, hdm]

theorem runMain_eq_daemon (o : Options) (f : Faults) (d : Device) (sig : Option Nat)
    (hA : argsCheck o = none) (hs : (setupPhase o f d).2 = true)
    (hd : o.run_as_daemon = true) (hdm : f.daemonOk = true) :
    runMain o f d sig =
      ((setupPhase o f d).1 ++ [Ev.daemonize] ++ (supervise o f d.termios sig).1,
        (supervise o f d.termios sig).2) := by
  unfold runMain
  rw [hA]
  simp [hs, hd, hdm]

theorem runMain_snd_returned (o : Options) (f : Faults) (d : Device)
    (sig : Option Nat) (n : Nat) (h : (runMain o f d sig).2 = .returned n) :
    ∃ s, sig = some s ∧ o.run_as_daemon = false ∧ (s = SIGINT ∨ s = SIGTERM) ∧
      n = 128 + s ∧ Ev.setAttrs d.termios ∈ (runMain o f d sig).1 := by
  rcases hA : argsCheck o with _ | r
  · by_cases hs : (setupPhase o f d).2 = true
    · by_cases hd : o.run_as_daemon = true
      · by_cases hdm : f.daemonOk = true
        · rw [runMain_eq_daemon o f d sig hA hs hd hdm] at h
          have hsup := supervise_snd_returned o f d.termios sig n h
          rcases hsup with ⟨s, _, h2, _, _, _⟩
          rw [hd] at h2
          exact absurd h2 (by simp)
        · rw [runMain_eq_daemonFail o f d sig hA hs hd (by simpa using hdm)] at h
          simp at h
      · rw [runMain_eq_fg o f d sig hA hs (by simpa using hd)] at h ⊢
        have hsup := supervise_snd_returned o f d.termios sig n h
        rcases hsup with ⟨s, h1, h2, h3, h4, h5⟩
        exact ⟨s, h1, h2, h3, h4, List.mem_append_right _ h5⟩
    · rw [runMain_eq_setupFail o f d sig hA (by simpa using hs)] at h
      simp at h
  · rw [runMain_eq_reject o f d sig r hA] at h
    rcases r <;> simp at h

/-! ## Validation lemmas -/

theorem argsCheck_none_valid (o : Options) (h : argsCheck o = none) :
    ¬ badSpeedArg o ∧ ¬ badBtrArg o ∧ ¬ badUartArg o ∧ ¬ badFlowArg o ∧ ¬ badNameArg o := by
  unfold argsCheck at h
  split_ifs at h with c1 c2 c3 c4 c5 c6
  refine ⟨?_, ?_, ?_, ?_, ?_⟩
  · rintro ⟨s, hs, hl⟩
    exact c1 (by simp [hs, hl])
  · rintro ⟨b, hb, hl⟩
    exact c4 (by simp [hb, hl])
  · rintro ⟨u, hu, hl⟩
    exact c2 (by simp [hu, hl])
  · rintro ⟨t, ht, hl⟩
    exact c3 (by simp [ht, hl])
  · rintro ⟨n', hn, hl⟩
    exact c6 (by simp [hn, hl])

theorem primer_flatten_eq (o : Options) :
    (primerCmds o).flatten = specPrimerBytes o := by
  unfold primerCmds specPrimerBytes specCommands
  rcases o.speed with _ | s <;> rcases o.btr with _ | b <;>
    rcases hf : o.send_read_status_flags with _ | _ <;>
    rcases hl : o.send_listen with _ | _ <;>
    rcases ho : o.send_open with _ | _ <;>
    simp

/-! ## Claims -/

/-- C1, counterexample.  The claim says every exit path after the device is
opened reapplies the original snapshot.  In the run `h_slcand -s6 x` where
the primer `write` fails, the device has been opened and the process takes a
fatal-error exit, yet no `TCSETS2` with the original snapshot ever happens:
the source calls `exit(EXIT_FAILURE)` directly, skipping the restore. -/
theorem C1_counterexample :
    (∃ p, Ev.openDev p ∈ (runMain oSpeed fWriteFail d0 none).1)
    ∧ (runMain oSpeed fWriteFail d0 none).2 = .failExit
    ∧ Ev.setAttrs d0.termios ∉ (runMain oSpeed fWriteFail d0 none).1 :=
  ⟨⟨['/', 'd', 'e', 'v', '/', 'x'], by decide⟩, by decide, by decide⟩

/-- C1, amended.  Whenever the process reaches the final `return exit_code`
(the signal-triggered shutdown path, with discipline detach and the optional
close command succeeding), the teardown code does reapply exactly the
original pre-mutation snapshot `d.termios` to the device; fatal errors after
the open exit immediately without restoring. -/
theorem C1_amended_restore_on_return (o : Options) (f : Faults) (d : Device)
    (sig : Option Nat) (n : Nat) (h : (runMain o f d sig).2 = .returned n) :
    Ev.setAttrs d.termios ∈ (runMain o f d sig).1 := by
  obtain ⟨s, _, _, _, _, h5⟩ := runMain_snd_returned o f d sig n h
  exact h5

/-- C1, witness: the foreground run `h_slcand -F x` interrupted by `SIGINT`
reaches the final return with code 130 and restores the snapshot. -/
theorem C1_witness : Ev.setAttrs d0.termios ∈ (runMain o1 allOk d0 (some SIGINT)).1 :=
  C1_amended_restore_on_return o1 allOk d0 (some SIGINT) 130 (by decide)

/-- C2: the Protocol Primer emits exactly the commands whose flag/value was
supplied, in the fixed order CAN-speed, bit-timing, read-status, then
exactly one of listen-only or open (listen-only winning), each terminated by
a single carriage return and nothing else: the emitted byte stream equals
the spec-side description, and in any run whose individual writes succeed
and whose setup phase completes, the `write` calls of the setup phase are
exactly the primer commands. -/
theorem C2_primer_commands (o : Options) :
    (primerCmds o).flatten = specPrimerBytes o
    ∧ ∀ f d, (∀ i, f.writeOk i = true) → (setupPhase o f d).2 = true →
        writesOf (setupPhase o f d).1 = primerCmds o :=
  ⟨primer_flatten_eq o, fun f d hw hs => setup_writes o f d hw hs⟩

/-- C2, witness: the run `h_slcand -F -o -l -f -s6 -b7 x` with no faults
writes exactly `C\rS6\r`, `C\rs7\r`, `F\r`, `L\r` (and no `O\r`). -/
theorem C2_witness :
    writesOf (setupPhase oFull allOk d0).1 = primerCmds oFull :=
  (C2_primer_commands oFull).2 allOk d0 (fun _ => rfl) (by decide)

/-- C3, counterexample.  The claim says the exit status is 0 on clean
shutdown when the wait loop unblocks normally.  The only way the wait loop
unblocks is the signal handler clearing the running flag, and then the final
return carries 128 + signal: the foreground run terminated by `SIGTERM`
returns 143, not 0. -/
theorem C3_counterexample :
    (runMain o1 allOk d0 (some SIGTERM)).2 = .returned 143 ∧ (143 : Nat) ≠ 0 :=
  ⟨by decide, by decide⟩

/-- C3, amended.  The final return after the wait loop always carries
128 plus the number of a handled signal (never 0, since there is no distinct
"normal" unblock), and the fatal-error exits carry status 1
(`EXIT_FAILURE`). -/
theorem C3_amended_exit_codes (o : Options) (f : Faults) (d : Device) (sig : Option Nat) :
    (∀ n, (runMain o f d sig).2 = .returned n →
      ∃ s, sig = some s ∧ (s = SIGINT ∨ s = SIGTERM) ∧ n = 128 + s)
    ∧ ((runMain o f d sig).2 = .usageExit ∨ (runMain o f d sig).2 = .failExit →
        exitStatusOf (runMain o f d sig).2 = some 1) := by
  constructor
  · intro n h
    obtain ⟨s, h1, _, h3, h4, _⟩ := runMain_snd_returned o f d sig n h
    exact ⟨s, h1, h3, h4⟩
  · rintro (h | h) <;> rw [h] <;> rfl

/-- C3, witness: the `SIGTERM`-terminated foreground run returns 143 = 128 + 15. -/
theorem C3_witness :
    ∃ s, (some SIGTERM : Option Nat) = some s ∧ (s = SIGINT ∨ s = SIGTERM) ∧ 143 = 128 + s :=
  (C3_amended_exit_codes o1 allOk d0 (some SIGTERM)).1 143 (by decide)

/-- C4, counterexample.  The claim says receipt of any of interrupt,
termination, alarm, or child-exit in foreground mode leaves the Running
state and runs Teardown.  But `signal` is called only for `SIGINT` and
`SIGTERM`: a delivered `SIGCHLD` is ignored by default (the loop keeps
running, no teardown), and a delivered `SIGALRM` kills the process by
default disposition without any teardown. -/
theorem C4_counterexample :
    (runMain o1 allOk d0 (some SIGCHLD)).2 = .runsForever
    ∧ Ev.setLdisc N_TTY ∉ (runMain o1 allOk d0 (some SIGCHLD)).1
    ∧ (runMain o1 allOk d0 (some SIGALRM)).2 = .killedBySignal SIGALRM
    ∧ Ev.setLdisc N_TTY ∉ (runMain o1 allOk d0 (some SIGALRM)).1 :=
  ⟨by decide, by decide, by decide, by decide⟩

/-- C4, amended.  In foreground mode only interrupt and termination signals
are trapped; for those the handler sets the exit status to 128 + signal and
clears the running flag, and Teardown then executes (the detach of the line
discipline is attempted and the run ends in Teardown).  The handler itself
would also handle alarm and child-exit, but it is never installed for them. -/
theorem C4_amended_trapped_signals (o : Options) (f : Faults) (d : Device) (s : Nat)
    (hfg : o.run_as_daemon = false) (hs : s = SIGINT ∨ s = SIGTERM)
    (hargs : argsCheck o = none) (hsetup : (setupPhase o f d).2 = true) :
    child_handler s = .stop (128 + s)
    ∧ Ev.setLdisc N_TTY ∈ (runMain o f d (some s)).1
    ∧ ((runMain o f d (some s)).2 = .failExit
        ∨ (runMain o f d (some s)).2 = .returned (128 + s))
    ∧ SIGALRM ∉ installedSignals ∧ SIGCHLD ∉ installedSignals := by
  have hmem : s ∈ installedSignals := by
    rcases hs with h | h <;> subst h <;> decide
  have hch := installed_handler s hmem
  have hval : supervise o f d.termios (some s) = teardownRun o f d.termios (128 + s) := by
    rw [supervise_fg_handled o f d.termios s (by simp [hfg]) hmem, hch]
  rw [runMain_eq_fg o f d (some s) hargs hsetup hfg, hval]
  exact ⟨hch, List.mem_append_right _ (teardownRun_detach_first o f d.termios (128 + s)),
    teardownRun_outcomes o f d.termios (128 + s), by decide, by decide⟩

/-- C4, witness: `SIGINT` in the foreground run `h_slcand -F x`. -/
theorem C4_witness :
    child_handler SIGINT = .stop (128 + SIGINT)
    ∧ Ev.setLdisc N_TTY ∈ (runMain o1 allOk d0 (some SIGINT)).1
    ∧ ((runMain o1 allOk d0 (some SIGINT)).2 = .failExit
        ∨ (runMain o1 allOk d0 (some SIGINT)).2 = .returned (128 + SIGINT))
    ∧ SIGALRM ∉ installedSignals ∧ SIGCHLD ∉ installedSignals :=
  C4_amended_trapped_signals o1 allOk d0 SIGINT rfl (Or.inl rfl) (by decide) (by decide)

/-- C5, counterexample.  The claim says that for every starting baseline the
applied configuration has exactly one flow-control mode active, and that
both software flow-control input flags are cleared from the baseline.  The
source clears only `IXOFF` (line 255), never `IXON`: starting from a
baseline with `IXON` set and requesting no flow control, the applied
configuration still has `IXON` set, so software flow control is partially
active and the exactly-one invariant fails. -/
theorem C5_counterexample :
    matchesRequested (applyLineConfig baseIxon 0 FLOW_NONE) FLOW_NONE = false
    ∧ (applyLineConfig baseIxon 0 FLOW_NONE).c_iflag &&& IXON ≠ 0 :=
  ⟨by decide, by decide⟩

/-- C5, amended.  Line Setup clears the software input flow-control flag
(`IXOFF`) and the hardware flow-control flag (`CRTSCTS`) from the baseline
before re-enabling the requested mode; consequently, for every baseline
whose `IXON` bit is clear, the applied configuration has exactly one of
{none, hardware, software} active, matching the requested mode. -/
theorem C5_amended_flow_invariant (base : Termios2) (uartSpeed flowType : Nat)
    (h : base.c_iflag &&& IXON = 0) :
    matchesRequested (applyLineConfig base uartSpeed flowType) flowType = true
    ∧ (applyLineConfig base uartSpeed FLOW_NONE).c_iflag &&& IXOFF = 0
    ∧ (applyLineConfig base uartSpeed FLOW_NONE).c_cflag &&& CRTSCTS = 0 := by
  refine ⟨?_, ?_, ?_⟩
  · by_cases hw : flowType = FLOW_HW
    · subst hw
      exact matches_applied_hw base uartSpeed h
    · by_cases hsw : flowType = FLOW_SW
      · subst hsw
        exact matches_applied_sw base uartSpeed
      · exact matches_applied_other base uartSpeed flowType hw hsw h
  · rw [applyLineConfig_other base uartSpeed FLOW_NONE (by decide) (by decide)]
    exact iflag_cleared_ixoff base.c_iflag
  · rw [applyLineConfig_other base uartSpeed FLOW_NONE (by decide) (by decide)]
    exact cflag_cleared_crtscts base.c_cflag

/-- C5, witness: a zero baseline with hardware flow control requested. -/
theorem C5_witness :
    matchesRequested (applyLineConfig d0.termios 115200 FLOW_HW) FLOW_HW = true
    ∧ (applyLineConfig d0.termios 115200 FLOW_NONE).c_iflag &&& IXOFF = 0
    ∧ (applyLineConfig d0.termios 115200 FLOW_NONE).c_cflag &&& CRTSCTS = 0 :=
  C5_amended_flow_invariant d0.termios 115200 FLOW_HW (by decide)

/-- C6: every invalid input of the claim — a speed code longer than one
character, a bit-timing string longer than 8 characters, a UART baud over
6,000,000, a flow-control token other than `hw`/`sw`, or a rename target
longer than the interface-name limit — makes the run exit with failure
before the device is opened: the trace of device interactions is empty and
the outcome is a usage or direct failure exit (both with status 1). -/
theorem C6_invalid_rejected_before_open (o : Options) (f : Faults) (d : Device)
    (sig : Option Nat)
    (h : badSpeedArg o ∨ badBtrArg o ∨ badUartArg o ∨ badFlowArg o ∨ badNameArg o) :
    (runMain o f d sig).1 = []
    ∧ ((runMain o f d sig).2 = .usageExit ∨ (runMain o f d sig).2 = .failExit) := by
  rcases hA : argsCheck o with _ | r
  · exfalso
    have hv := argsCheck_none_valid o hA
    rcases h with h | h | h | h | h
    exacts [hv.1 h, hv.2.1 h, hv.2.2.1 h, hv.2.2.2.1 h, hv.2.2.2.2 h]
  · rcases r
    · rw [runMain_eq_reject o f d sig .usage hA]
      exact ⟨rfl, Or.inl rfl⟩
    · rw [runMain_eq_reject o f d sig .fail hA]
      exact ⟨rfl, Or.inr rfl⟩

/-- C6, witness: a 9-character bit-timing argument is rejected with an empty
device trace. -/
theorem C6_witness :
    (runMain oBadBtr allOk d0 none).1 = []
    ∧ ((runMain oBadBtr allOk d0 none).2 = .usageExit
        ∨ (runMain oBadBtr allOk d0 none).2 = .failExit) :=
  C6_invalid_rejected_before_open oBadBtr allOk d0 none
    (Or.inr (Or.inl ⟨['1', '2', '3', '4', '5', '6', '7', '8', '9'], rfl, by decide⟩))

/-- C7, counterexample.  The claim says failure of any step of a requested
rename is fatal.  But when the throwaway `socket` call fails, the source
only logs it and skips the rename: the run `h_slcand -F x c0` with a failing
`socket` continues into the wait loop instead of exiting with failure. -/
theorem C7_counterexample :
    (runMain oRename fSockFail d0 none).2 = .runsForever
    ∧ Ev.sockOpen ∈ (runMain oRename fSockFail d0 none).1
    ∧ (runMain oRename fSockFail d0 none).2 ≠ .failExit :=
  ⟨by decide, by decide, by decide⟩

/-- C7, amended.  Failure of the discipline attach, failure of the
interface-name query, and failure of the rename `ioctl` itself are each
fatal (the process exits with failure); only the socket-creation step of a
requested rename is non-fatal — it is logged and the rename is skipped. -/
theorem C7_amended_fatal_failures (o : Options) (f : Faults) (d : Device)
    (sig : Option Nat) (hargs : argsCheck o = none) (hpre : preAttachOk f) :
    (f.setLdiscOk = false → (runMain o f d sig).2 = .failExit)
    ∧ (f.setLdiscOk = true → f.getIfNameOk = false → (runMain o f d sig).2 = .failExit)
    ∧ (∀ nm, o.name = some nm → f.setLdiscOk = true → f.getIfNameOk = true →
        f.socketOk = true → f.renameOk = false → (runMain o f d sig).2 = .failExit) := by
  refine ⟨fun h => ?_, fun ha hb => ?_, fun nm hnm ha hb hc hd => ?_⟩
  · rw [runMain_eq_setupFail o f d sig hargs (setup_flag_ldisc_fail o f d hpre h)]
  · rw [runMain_eq_setupFail o f d sig hargs (setup_flag_ifname_fail o f d hpre ha hb)]
  · rw [runMain_eq_setupFail o f d sig hargs
      (setup_flag_rename_fail o f d nm hpre ha hb hnm hc hd)]

/-- C7, witness: a failing discipline attach on `h_slcand -F x` is fatal. -/
theorem C7_witness : (runMain o1 fLdiscFail d0 none).2 = .failExit :=
  (C7_amended_fatal_failures o1 fLdiscFail d0 none (by decide)
    ⟨rfl, rfl, rfl, rfl, fun _ => rfl⟩).1 rfl

/-- C8: every one-character speed argument, whatever the character, passes
validation (only the length is checked) and the primer emits
`C\rS<char>\r` verbatim as its first write. -/
theorem C8_single_char_speed_verbatim (c : Char) :
    argsCheck (o8 c) = none
    ∧ primerCmds (o8 c) = [['C', '\r', 'S', c, '\r']] :=
  ⟨rfl, rfl⟩

/-- C9: when no UART baud option is supplied the resolved baud is the
default 0, and the configuration applied by Line Setup carries input and
output speed 0 with the custom-baud selector `BOTHER` in the `CBAUD` field —
the device's baud is not left unchanged. -/
theorem C9_default_baud_zero_applied (o : Options) (base : Termios2) (flowType : Nat)
    (h : o.uart_arg = none) :
    uart_speed o = 0
    ∧ (applyLineConfig base (uart_speed o) flowType).c_ispeed = 0
    ∧ (applyLineConfig base (uart_speed o) flowType).c_ospeed = 0
    ∧ (applyLineConfig base (uart_speed o) flowType).c_cflag &&& CBAUD = BOTHER := by
  have h0 : uart_speed o = 0 := by simp [uart_speed, h]
  rw [h0]
  by_cases hw : flowType = FLOW_HW
  · subst hw
    rw [applyLineConfig_hw]
    exact ⟨rfl, rfl, rfl, cflag_cbaud_is_bother_hw base.c_cflag⟩
  · by_cases hsw : flowType = FLOW_SW
    · subst hsw
      rw [applyLineConfig_sw]
      exact ⟨rfl, rfl, rfl, cflag_cbaud_is_bother base.c_cflag⟩
    · rw [applyLineConfig_other base 0 flowType hw hsw]
      exact ⟨rfl, rfl, rfl, cflag_cbaud_is_bother base.c_cflag⟩

/-- C9, witness: the baud-less invocation `h_slcand -F x` on the `IXON`
baseline with software flow control requested. -/
theorem C9_witness :
    uart_speed o1 = 0
    ∧ (applyLineConfig baseIxon (uart_speed o1) FLOW_SW).c_ispeed = 0
    ∧ (applyLineConfig baseIxon (uart_speed o1) FLOW_SW).c_ospeed = 0
    ∧ (applyLineConfig baseIxon (uart_speed o1) FLOW_SW).c_cflag &&& CBAUD = BOTHER :=
  C9_default_baud_zero_applied o1 baseIxon FLOW_SW rfl

/-- C10: whenever control reaches the final return after the wait loop, the
returned status is 128 plus the number of a signal for which the handler was
installed, the handler having stored exactly that status when it cleared the
running flag; in particular the loop never unblocks with exit status 0. -/
theorem C10_final_return_code (o : Options) (f : Faults) (d : Device)
    (sig : Option Nat) (n : Nat) (h : (runMain o f d sig).2 = .returned n) :
    (∃ s, sig = some s ∧ s ∈ installedSignals ∧ child_handler s = .stop n ∧ n = 128 + s)
    ∧ n ≠ 0 := by
  obtain ⟨s, h1, _, h3, h4, _⟩ := runMain_snd_returned o f d sig n h
  have hmem : s ∈ installedSignals := by
    rcases h3 with hh | hh <;> subst hh <;> decide
  have hch : child_handler s = .stop n := by
    rw [installed_handler s hmem, h4]
  refine ⟨⟨s, h1, hmem, hch, h4⟩, ?_⟩
  rw [h4]
  omega

/-- C10, witness: the `SIGINT`-terminated foreground run returns 130. -/
theorem C10_witness :
    (∃ s, (some SIGINT : Option Nat) = some s ∧ s ∈ installedSignals
      ∧ child_handler s = .stop 130 ∧ 130 = 128 + s)
    ∧ (130 : Nat) ≠ 0 :=
  C10_final_return_code o1 allOk d0 (some SIGINT) 130 (by decide)

end HSlcand
